import Mathlib

/-!
Verification of the ambivo-gpt core (src/mcp_core.py and src/main.py).

The Python code is shallowly embedded: each Python function becomes a pure
Lean function, the network is an oracle `net : Nat → AttemptOutcome` giving
the outcome of the i-th outbound request attempt, Python exceptions become an
explicit `PyErr` value threaded through `Except`, and the shared client
object becomes an explicit `ClientState` value.  JSON values are modelled by
the inductive `JValue`; serialization (Python `json.dumps`) is modelled by a
plain structural serializer, since no verified property inspects the
serialized form.
-/

set_option autoImplicit false

namespace AmbivoGPT

/-- A JSON value, as produced by Python `json` parsing.  Numbers are modelled
as integers (no claim depends on float payloads). -/
inductive JValue where
  | null
  | bool (b : Bool)
  | num (n : Int)
  | str (s : String)
  | arr (xs : List JValue)
  | obj (fields : List (String × JValue))
deriving Repr

/-- Python `str.isspace` characters relevant to `str.strip()`. -/
def isPySpace (c : Char) : Bool :=
  c = ' ' || c = '\t' || c = '\n' || c = '\x0d' || c = '\x0b' || c = '\x0c'

/-- Model of Python `str.strip()`: remove leading and trailing whitespace. -/
def pyStrip (s : String) : String :=
  String.mk (((s.data.dropWhile isPySpace).reverse.dropWhile isPySpace).reverse)

/-- Model of Python `str.startswith(p)`. -/
def pyStartsWith (s p : String) : Bool :=
  p.data.isPrefixOf s.data

/-- Model of Python slicing `s[n:]` (by code points, as in Python). -/
def pyDrop (s : String) (n : Nat) : String :=
  String.mk (s.data.drop n)

/-- Model of Python slicing `s[:n]`. -/
def pyTake (s : String) (n : Nat) : String :=
  String.mk (s.data.take n)

/-- Python truthiness of a JSON value (`bool(v)`). -/
def pyTruthy : JValue → Bool
  | .null => false
  | .bool b => b
  | .num n => n != 0
  | .str s => s != ""
  | .arr xs => !xs.isEmpty
  | .obj fs => !fs.isEmpty

mutual
/-- Model of Python `json.dumps` (serialization details are irrelevant to
every claim, which treat the serialized body opaquely). -/
def jsonDumps : JValue → String
  | .null => "null"
  | .bool true => "true"
  | .bool false => "false"
  | .num n => toString n
  | .str s => "\"" ++ s ++ "\""
  | .arr xs => "[" ++ jsonDumpsList xs ++ "]"
  | .obj fs => "\x7b" ++ jsonDumpsFields fs ++ "\x7d"

def jsonDumpsList : List JValue → String
  | [] => ""
  | [x] => jsonDumps x
  | x :: xs => jsonDumps x ++ ", " ++ jsonDumpsList xs

def jsonDumpsFields : List (String × JValue) → String
  | [] => ""
  | [(k, v)] => "\"" ++ k ++ "\": " ++ jsonDumps v
  | (k, v) :: fs => "\"" ++ k ++ "\": " ++ jsonDumps v ++ ", " ++ jsonDumpsFields fs
end

/-- An upstream HTTP response as seen through httpx: status code, body text,
and the result of `response.json()` (`.error` models a JSON decode failure
with its message). -/
structure HttpResponse where
  statusCode : Nat
  text : String
  jsonBody : Except String JValue
deriving Repr

/-- The Python exceptions the embedded code can raise or observe.
`timeoutErr`, `connectErr`, `readErr` are `httpx.TimeoutException`,
`httpx.ConnectError`, `httpx.ReadError`; `httpStatusError` is
`httpx.HTTPStatusError` (carrying its response); `valueError` is
`ValueError`; `generic` is any other `Exception`, carrying its `str`. -/
inductive PyErr where
  | valueError (msg : String)
  | httpStatusError (resp : HttpResponse)
  | timeoutErr (msg : String)
  | connectErr (msg : String)
  | readErr (msg : String)
  | generic (msg : String)
deriving Repr

/-- Python `str(e)` for the modelled exceptions (the `HTTPStatusError` case is
never stringified by the embedded code; every handler that receives one reads
its response fields instead). -/
def pyStr : PyErr → String
  | .valueError m => m
  | .httpStatusError _ => "HTTPStatusError"
  | .timeoutErr m => m
  | .connectErr m => m
  | .readErr m => m
  | .generic m => m

/-- Which of the three transient httpx exception classes a failed attempt
raised (`except (httpx.TimeoutException, httpx.ConnectError, httpx.ReadError)`
in `_make_request_with_retry`). -/
inductive TransientKind where
  | timeout
  | connect
  | read
deriving Repr, DecidableEq

/-- Outcome of one call of `self.client.request(...)`: a response, one of the
three transient exceptions (with its message), or any other exception, which
the retry loop does not catch. -/
inductive AttemptOutcome where
  | success (r : HttpResponse)
  | transient (k : TransientKind) (msg : String)
  | fatal (msg : String)
deriving Repr

/-- The httpx exception corresponding to a transient attempt failure. -/
def transientErr : TransientKind → String → PyErr
  | .timeout, m => .timeoutErr m
  | .connect, m => .connectErr m
  | .read, m => .readErr m

/-- The mutable state of the shared `AmbivoAPIClient` instance.  `timeoutStr`
is the printed form of `self.timeout` (a float used only inside one error
message; floating point itself is never computed with). -/
structure ClientState where
  base_url : String
  auth_token : Option String
  timeoutStr : String
  max_retries : Nat
deriving Repr, DecidableEq

/-- Python truthiness of the `auth_token` field (`None` and `""` are falsy). -/
def tokenTruthy : Option String → Bool
  | none => false
  | some s => s != ""

/-- Embedding of `AmbivoAPIClient.set_auth_token` (src/mcp_core.py lines 48-53).  Returns
the state after the call together with the raised exception, if any; the
validation happens before the assignment, so on failure the state is
returned unchanged. -/
def set_auth_token (st : ClientState) (token : String) : ClientState × Except PyErr Unit :=
  if token = "" ∨ token.length < 10 then
    (st, .error (.valueError "Invalid token format"))
  else
    ({ st with auth_token := some token }, .ok ())

/-- The observable trace of `_make_request_with_retry`: its result (response
or raised exception), how many request attempts were made, and the sleep
durations (in seconds, in order) between attempts. -/
structure RetryTrace where
  result : Except PyErr HttpResponse
  attempts : Nat
  sleeps : List Nat
deriving Repr

/-- The body of the `for attempt in range(self.max_retries + 1)` loop of
`_make_request_with_retry` (src/mcp_core.py lines 66-86), starting at a given
attempt index, with the remaining number of loop iterations as fuel.  The
fuel-exhausted case models the final `raise last_exception` (line 86), which
is unreachable when the loop is entered with `fuel = max_retries + 1`. -/
def retryLoop (mr : Nat) (net : Nat → AttemptOutcome) : Nat → Nat → RetryTrace
  | _, 0 => ⟨.error (.generic "last_exception"), 0, []⟩
  | attempt, fuel + 1 =>
    match net attempt with
    | .success r => ⟨.ok r, 1, []⟩
    | .fatal m => ⟨.error (.generic m), 1, []⟩
    | .transient k m =>
      if attempt < mr then
        let rest := retryLoop mr net (attempt + 1) fuel
        ⟨rest.result, rest.attempts + 1, 2 ^ attempt :: rest.sleeps⟩
      else
        ⟨.error (transientErr k m), 1, []⟩

/-- Embedding of `AmbivoAPIClient._make_request_with_retry` (src/mcp_core.py lines 62-86),
with the network abstracted by the per-attempt oracle `net`. -/
def make_request_with_retry (mr : Nat) (net : Nat → AttemptOutcome) : RetryTrace :=
  retryLoop mr net 0 (mr + 1)

/-- httpx `response.is_success`: `raise_for_status` raises exactly when the
status code is outside 200-299. -/
def is2xx (s : Nat) : Bool := 200 ≤ s && s ≤ 299

/-- The `except` clauses of `natural_query` (src/mcp_core.py lines 131-141):
an `httpx.TimeoutException` is replaced by
`Exception(f"Request timeout after {self.timeout}s")`; every other exception
is re-raised unchanged. -/
def naturalQueryExcept (st : ClientState) : PyErr → PyErr
  | .timeoutErr _ => .generic ("Request timeout after " ++ st.timeoutStr ++ "s")
  | e => e

/-- The test `response_format in ["table", "natural", "both"]` (membership test of
src/mcp_core.py line 100, specialised to list-literal membership). -/
def isValidFormat : JValue → Bool
  | .str "table" => true
  | .str "natural" => true
  | .str "both" => true
  | _ => false

/-- The observable outcome of one `natural_query` call: the returned JSON
mapping or the raised exception, plus the number of outbound request attempts
made and the sleeps performed. -/
structure QueryOutcome where
  result : Except PyErr JValue
  attempts : Nat
  sleeps : List Nat
deriving Repr

/-- Embedding of `AmbivoAPIClient.natural_query` (src/mcp_core.py lines 88-141).  `query`
and `response_format` are JSON values, as the dispatcher passes them through
dynamically; a truthy non-string `query` makes `query.strip()` raise an
`AttributeError`, modelled as a `generic` error.  The request payload is
built as in the source but is opaque to the network oracle. -/
def natural_query (st : ClientState) (net : Nat → AttemptOutcome)
    (query : JValue) (response_format : JValue)
    (enable_memory : Option JValue) (session_id : Option JValue) : QueryOutcome :=
  if !pyTruthy query then
    ⟨.error (.valueError "Query cannot be empty"), 0, []⟩
  else
    match query with
    | .str q =>
      if (pyStrip q).length = 0 then
        ⟨.error (.valueError "Query cannot be empty"), 0, []⟩
      else if q.length > 1000 then
        ⟨.error (.valueError "Query too long. Maximum length: 1000"), 0, []⟩
      else if !isValidFormat response_format then
        ⟨.error (.valueError "Invalid response_format. Must be \x27table\x27, \x27natural\x27, or \x27both\x27"), 0, []⟩
      else
        let _payload : JValue :=
          .obj ([("query", query), ("response_format", response_format)]
            ++ (match enable_memory with | some em => [("enable_memory", em)] | none => [])
            ++ (match session_id with | some sid => [("session_id", sid)] | none => []))
        let tr := make_request_with_retry st.max_retries net
        match tr.result with
        | .error e => ⟨.error (naturalQueryExcept st e), tr.attempts, tr.sleeps⟩
        | .ok resp =>
          if is2xx resp.statusCode then
            match resp.jsonBody with
            | .ok j => ⟨.ok j, tr.attempts, tr.sleeps⟩
            | .error m => ⟨.error (.generic m), tr.attempts, tr.sleeps⟩
          else
            ⟨.error (.httpStatusError resp), tr.attempts, tr.sleeps⟩
    | _ => ⟨.error (.generic "AttributeError: object has no attribute strip"), 0, []⟩

/-- The simplified `TextContent` dataclass (src/mcp_core.py lines 30-34). -/
structure TextContent where
  type : String
  text : String
deriving Repr, DecidableEq

/-- The observable outcome of one `handle_call_tool` invocation: the returned
content list, the client state after the call, and the outbound request
attempts/sleeps performed while handling it. -/
structure DispatchResult where
  contents : List TextContent
  state : ClientState
  attempts : Nat
  sleeps : List Nat
deriving Repr

/-- Python `arguments.get(key)` for the argument mapping. -/
def argGet (args : List (String × JValue)) (k : String) : Option JValue :=
  (args.find? (fun p => p.1 = k)).map Prod.snd

/-- Python `arguments.get(key, default)`. -/
def argGetD (args : List (String × JValue)) (k : String) (d : JValue) : JValue :=
  (argGet args k).getD d

/-- Python truthiness of an `Optional` JSON value (`None` is falsy). -/
def optTruthy : Option JValue → Bool
  | none => false
  | some v => pyTruthy v

/-- The `try:` body of `handle_call_tool` (src/mcp_core.py lines 216-276):
the dispatch on the tool name, including the inner `try/except` around the
delegated `natural_query` call (lines 257-273).  A `.error` result is an
exception escaping to the outer handlers of lines 278-296.  A truthy
non-string token makes `len(token)` in `set_auth_token` raise for the
non-sized JSON values; that dynamic corner (no claim quantifies over it) is
modelled as a `generic` error. -/
def call_tool_inner (st : ClientState) (net : Nat → AttemptOutcome)
    (name : String) (args : List (String × JValue)) : Except PyErr DispatchResult :=
  if name = "set_auth_token" then
    let token := argGet args "token"
    if !optTruthy token then
      .ok ⟨[⟨"text", "Error: Authentication token is required"⟩], st, 0, []⟩
    else
      match token with
      | some (.str t) =>
        match set_auth_token st t with
        | (st1, .ok ()) =>
          .ok ⟨[⟨"text", "Authentication token set successfully. You can now use other tools to query the Ambivo API."⟩], st1, 0, []⟩
        | (_, .error e) => .error e
      | _ => .error (.generic "TypeError: object has no len()")
  else if name = "natural_query" then
    if !tokenTruthy st.auth_token then
      .ok ⟨[⟨"text", "Error: Authentication required. Please use the \x27set_auth_token\x27 tool first."⟩], st, 0, []⟩
    else
      let query := argGet args "query"
      if !optTruthy query then
        .ok ⟨[⟨"text", "Error: Query parameter is required"⟩], st, 0, []⟩
      else
        let response_format := argGetD args "response_format" (.str "both")
        let enable_memory := argGet args "enable_memory"
        let session_id := argGet args "session_id"
        let out := natural_query st net (query.getD .null) response_format enable_memory session_id
        match out.result with
        | .ok result =>
          .ok ⟨[⟨"text", "Natural Query Results:\n\n" ++ jsonDumps result⟩], st, out.attempts, out.sleeps⟩
        | .error (.httpStatusError r) =>
          .ok ⟨[⟨"text", "API Error: HTTP " ++ toString r.statusCode ++ ": " ++ r.text⟩], st, out.attempts, out.sleeps⟩
        | .error e =>
          .ok ⟨[⟨"text", "Error executing natural query: " ++ pyStr e⟩], st, out.attempts, out.sleeps⟩
  else
    .ok ⟨[⟨"text", "Unknown tool: " ++ name⟩], st, 0, []⟩

/-- The outer `except httpx.HTTPStatusError` handler of `handle_call_tool`
(src/mcp_core.py lines 282-292): appends the body's `error_code` field if its
JSON parse yields a mapping containing one, otherwise (bare `except`, or a
missing field leaves `error_msg` as built) the first 200 characters of the
body text.  Note: every `HTTPStatusError` of the dispatch is raised inside
the inner `try` of lines 257-273 and caught there, so this handler is
unreachable from `handle_call_tool`; it is embedded for completeness. -/
def outerStatusText (r : HttpResponse) : String :=
  let base := "API Error (HTTP " ++ toString r.statusCode ++ ")"
  match r.jsonBody with
  | .ok (.obj fs) =>
    match (fs.find? (fun p => p.1 = "error_code")).map Prod.snd with
    | some ec => base ++ ": " ++ jsonDumps ec
    | none => base
  | .ok _ => base ++ ": " ++ pyTake r.text 200
  | .error _ => base ++ ": " ++ pyTake r.text 200

/-- Embedding of `handle_call_tool` (src/mcp_core.py lines 206-300): the `arguments is
None` normalisation and the outer exception handlers (`except ValueError`,
`except httpx.HTTPStatusError`, `except Exception`) around
`call_tool_inner`.  The result stays in `Except` so that "never raises to
the caller" is a provable statement rather than a typing artifact. -/
def handle_call_tool (st : ClientState) (net : Nat → AttemptOutcome)
    (name : String) (arguments : Option (List (String × JValue))) :
    Except PyErr DispatchResult :=
  let args := arguments.getD []
  match call_tool_inner st net name args with
  | .ok r => .ok r
  | .error (.valueError m) =>
    .ok ⟨[⟨"text", "Validation Error: " ++ m⟩], st, 0, []⟩
  | .error (.httpStatusError r) =>
    .ok ⟨[⟨"text", outerStatusText r⟩], st, 0, []⟩
  | .error e =>
    .ok ⟨[⟨"text", "Unexpected error: " ++ pyStr e⟩], st, 0, []⟩

/-- The simplified `Tool` dataclass (src/mcp_core.py lines 22-27). -/
structure Tool where
  name : String
  description : String
  inputSchema : JValue
deriving Repr

/-- Embedding of `handle_list_tools` (src/mcp_core.py lines 152-203): the two static tool
descriptors. -/
def handle_list_tools : List Tool :=
  [ { name := "natural_query"
      description := "Execute natural language queries against Ambivo entity data. This tool processes natural language queries and returns structured data about leads, contacts, opportunities, and other entities."
      inputSchema := .obj
        [ ("type", .str "object")
        , ("properties", .obj
            [ ("query", .obj [("type", .str "string"), ("description", .str "Natural language query describing what data you want to retrieve. Examples: \x27Show me leads created this week\x27, \x27Find contacts with gmail addresses\x27, \x27List opportunities worth more than $10,000\x27")])
            , ("response_format", .obj [("type", .str "string"), ("enum", .arr [.str "table", .str "natural", .str "both"]), ("default", .str "both"), ("description", .str "Format of the response: \x27table\x27 for structured data, \x27natural\x27 for natural language description, \x27both\x27 for both formats")])
            , ("enable_memory", .obj [("type", .str "boolean"), ("description", .str "Optional flag to enable memory for the query session")])
            , ("session_id", .obj [("type", .str "string"), ("description", .str "Optional session identifier for memory management")])
            ])
        , ("required", .arr [.str "query"])
        ] }
  , { name := "set_auth_token"
      description := "Set the authentication token for API requests. This must be called before using other tools to authenticate with the Ambivo API."
      inputSchema := .obj
        [ ("type", .str "object")
        , ("properties", .obj
            [ ("token", .obj [("type", .str "string"), ("description", .str "JWT Bearer token for authentication with Ambivo API")]) ])
        , ("required", .arr [.str "token"])
        ] }
  ]

/-! ### The FastAPI layer (src/main.py)

Each HTTP handler becomes a function from the shared client state (plus its
request data and the network oracle) to the state after the handler and the
HTTP-level result: a 200 JSON body, or a raised `HTTPException`
(status, detail).  `datetime.now` is abstracted by a `now : String`
parameter. -/

/-- The `QueryRequest` pydantic model (src/main.py lines 26-28). -/
structure QueryRequest where
  query : String
  response_format : String
deriving Repr

/-- The `ToolRequest` pydantic model (src/main.py lines 31-33);
`arguments` defaults to the empty mapping. -/
structure ToolRequest where
  name : String
  arguments : List (String × JValue)

/-- State and HTTP result of one handler call: 200 body, or raised
`HTTPException` as `(status_code, detail)`. -/
structure WebOutcome where
  state : ClientState
  response : Except (Nat × String) JValue

/-- The `get_auth_token` dependency (src/main.py lines 58-70). -/
def get_auth_token (authorization : Option String) : Except (Nat × String) String :=
  match authorization with
  | none => .error (401, "Authorization header required")
  | some auth =>
    if !pyStartsWith auth "Bearer " then
      .error (401, "Bearer token required")
    else
      let token := pyDrop auth 7
      if token = "" then .error (401, "Token cannot be empty")
      else .ok token

/-- The token-restoring `finally` blocks of the three handlers
(src/main.py lines 388-393, 430-435, 468-473): a truthy original token is
written back, a falsy one (absent, or the empty string) is cleared to
`None`. -/
def restoreToken (st : ClientState) (original : Option String) : ClientState :=
  if tokenTruthy original then { st with auth_token := original }
  else { st with auth_token := none }

/-- The response-text accumulation loop of the handlers:
`response_text += content.text + "\n"` followed by `.strip()`. -/
def joinContents (contents : List TextContent) : String :=
  pyStrip (String.join (contents.map (fun c => c.text ++ "\n")))

/-- Python `str(HTTPException(status, detail))` as used by
`HTTPException(status_code=500, detail=str(e))` re-raising. -/
def httpExceptionStr (status : Nat) (detail : String) : String :=
  toString status ++ ": " ++ detail

/-- The `POST /query` handler `natural_language_query`
(src/main.py lines 332-397). -/
def natural_language_query (st : ClientState) (net : Nat → AttemptOutcome)
    (now : String) (request : QueryRequest) (authorization : Option String) : WebOutcome :=
  let query_text := request.query
  let format_type := request.response_format
  match authorization with
  | none =>
    ⟨st, .ok (.obj [("debug", .str "No authorization header received"), ("query", .str query_text), ("timestamp", .str now), ("success", .bool false)])⟩
  | some auth =>
    if !pyStartsWith auth "Bearer " then
      ⟨st, .ok (.obj [("debug", .str ("Authorization header format wrong: \x27" ++ auth ++ "\x27")), ("query", .str query_text), ("timestamp", .str now), ("success", .bool false)])⟩
    else
      let token := pyDrop auth 7
      if query_text = "" then
        -- `raise HTTPException(400, ...)` inside the outer `try`: caught by
        -- `except Exception` (line 395) and re-raised as a 500.
        ⟨st, .error (500, httpExceptionStr 400 "Query parameter is required")⟩
      else
        let original_token := st.auth_token
        match set_auth_token st token with
        | (st1, .error e) => ⟨st1, .error (500, pyStr e)⟩
        | (st1, .ok ()) =>
          match handle_call_tool st1 net "natural_query"
              (some [("query", .str query_text), ("response_format", .str format_type)]) with
          | .ok dr =>
            let st2 := restoreToken dr.state original_token
            ⟨st2, .ok (.obj
              [ ("query", .str query_text)
              , ("result", .str (joinContents dr.contents))
              , ("response_format", .str format_type)
              , ("timestamp", .str now)
              , ("success", .bool true)
              ])⟩
          | .error e =>
            -- the `finally` restore still runs before the exception reaches
            -- the outer handler (never taken: `handle_call_tool` never raises)
            ⟨restoreToken st1 original_token, .error (500, pyStr e)⟩

/-- The `GET /tools` handler `list_tools` (src/main.py lines 400-439). -/
def list_tools (st : ClientState) (authorization : Option String) : WebOutcome :=
  match get_auth_token authorization with
  | .error es => ⟨st, .error es⟩
  | .ok token =>
    let original_token := st.auth_token
    match set_auth_token st token with
    | (st1, .error e) => ⟨st1, .error (500, pyStr e)⟩
    | (st1, .ok ()) =>
      let tools := handle_list_tools.map (fun t =>
        JValue.obj [("name", .str t.name), ("description", .str t.description), ("parameters", t.inputSchema)])
      ⟨restoreToken st1 original_token, .ok (.obj
        [ ("tools", .arr tools)
        , ("server_info", .obj
            [ ("name", .str "ambivo-gpt-actions-fastapi")
            , ("version", .str "2025-07-31T02:50:00Z")
            , ("capabilities", .arr [.str "natural_language_queries", .str "crm_data_access"])
            ])
        ])⟩

/-- The `POST /tools` handler `execute_tool` (src/main.py lines 442-477). -/
def execute_tool (st : ClientState) (net : Nat → AttemptOutcome)
    (request : ToolRequest) (authorization : Option String) : WebOutcome :=
  match get_auth_token authorization with
  | .error es => ⟨st, .error es⟩
  | .ok token =>
    let original_token := st.auth_token
    match set_auth_token st token with
    | (st1, .error e) => ⟨st1, .error (500, pyStr e)⟩
    | (st1, .ok ()) =>
      match handle_call_tool st1 net request.name (some request.arguments) with
      | .ok dr =>
        ⟨restoreToken dr.state original_token, .ok (.obj
          [ ("result", .str (joinContents dr.contents))
          , ("tool_name", .str request.name)
          , ("success", .bool true)
          ])⟩
      | .error e =>
        ⟨restoreToken st1 original_token, .error (500, pyStr e)⟩

/-! ### Theorems -/

/-- A concrete client state used by the concrete witnesses: the default
configuration of `AmbivoAPIClient.__init__` with no token set. -/
def stDefault : ClientState :=
  { base_url := "https://goferapi.ambivo.com"
    auth_token := none
    timeoutStr := "30.0"
    max_retries := 3 }

/-- A concrete client state holding a valid token. -/
def stAuthed : ClientState :=
  { stDefault with auth_token := some "valid-token-123" }

/-- C8: `setToken(token)` succeeds and sets the client token to `token`
exactly when `token` is a non-empty string of length at least 10 (for
strings, `len(token) >= 10` already implies non-emptiness, and the code's
`not token or len(token) < 10` test is equivalent to `len(token) < 10`);
otherwise it raises `ValidationError` and the stored token is unchanged. -/
theorem set_auth_token_spec (st : ClientState) (token : String) :
    (10 ≤ token.length →
      set_auth_token st token = ({ st with auth_token := some token }, .ok ())) ∧
    (token.length < 10 →
      set_auth_token st token = (st, .error (.valueError "Invalid token format"))) := by
  constructor
  · intro h
    unfold set_auth_token
    rw [if_neg]
    rintro (he | he)
    · subst he; simp at h
    · omega
  · intro h
    unfold set_auth_token
    rw [if_pos (Or.inr h)]

/-- Witness for C8 at the concrete tokens `"abcdefghij"` (length 10,
accepted) and `"short"` (length 5, rejected with the state unchanged). -/
theorem set_auth_token_spec_witness :
    set_auth_token stDefault "abcdefghij"
      = ({ stDefault with auth_token := some "abcdefghij" }, .ok ()) ∧
    set_auth_token stDefault "short"
      = (stDefault, .error (.valueError "Invalid token format")) :=
  ⟨(set_auth_token_spec stDefault "abcdefghij").1 (by decide),
   (set_auth_token_spec stDefault "short").2 (by decide)⟩

/-- C10: calling the dispatcher with an absent arguments mapping is the same
as calling it with the empty mapping (the `if arguments is None:
arguments = {}` normalisation), for every tool name, client state and
network behaviour. -/
theorem handle_call_tool_none_eq_empty (st : ClientState) (net : Nat → AttemptOutcome)
    (name : String) :
    handle_call_tool st net name none = handle_call_tool st net name (some []) := rfl

/-- C3: a query that is empty after trimming, or longer than 1000
characters, or a `response_format` outside `{"table", "natural", "both"}`,
makes `natural_query` raise a `ValueError` with zero outbound request
attempts (and hence no sleeps). -/
theorem natural_query_validation (st : ClientState) (net : Nat → AttemptOutcome)
    (q : String) (rf : JValue) (em sid : Option JValue)
    (h : (pyStrip q).length = 0 ∨ 1000 < q.length ∨ isValidFormat rf = false) :
    ∃ m, natural_query st net (.str q) rf em sid =
      ⟨.error (.valueError m), 0, []⟩ := by
  by_cases hq : q = ""
  · subst hq
    exact ⟨"Query cannot be empty", rfl⟩
  · have hqt : pyTruthy (.str q) = true := by simp [pyTruthy, hq]
    by_cases h1 : (pyStrip q).length = 0
    · refine ⟨"Query cannot be empty", ?_⟩
      unfold natural_query
      rw [hqt]
      simp only [Bool.not_true, Bool.false_eq_true, if_false]
      rw [if_pos h1]
    · by_cases h2 : 1000 < q.length
      · refine ⟨"Query too long. Maximum length: 1000", ?_⟩
        unfold natural_query
        rw [hqt]
        simp only [Bool.not_true, Bool.false_eq_true, if_false]
        rw [if_neg h1, if_pos h2]
      · have h3 : isValidFormat rf = false := by tauto
        refine ⟨"Invalid response_format. Must be \x27table\x27, \x27natural\x27, or \x27both\x27", ?_⟩
        unfold natural_query
        rw [hqt]
        simp only [Bool.not_true, Bool.false_eq_true, if_false]
        rw [if_neg h1, if_neg h2, h3]
        simp

/-- Witness for C3: a whitespace-only query, an overlong query, and a bad
response format each fail with zero attempts. -/
theorem natural_query_validation_witness :
    (∃ m, natural_query stAuthed (fun _ => .fatal "unused") (.str "   ") (.str "both") none none
      = ⟨.error (.valueError m), 0, []⟩) ∧
    (∃ m, natural_query stAuthed (fun _ => .fatal "unused") (.str (String.mk (List.replicate 1001 'a'))) (.str "both") none none
      = ⟨.error (.valueError m), 0, []⟩) ∧
    (∃ m, natural_query stAuthed (fun _ => .fatal "unused") (.str "count leads") (.str "bogus") none none
      = ⟨.error (.valueError m), 0, []⟩) :=
  ⟨natural_query_validation _ _ _ _ _ _ (Or.inl (by decide)),
   natural_query_validation _ _ _ _ _ _ (Or.inr (Or.inl (by
     show 1000 < (List.replicate 1001 'a').length
     rw [List.length_replicate]
     norm_num))),
   natural_query_validation _ _ _ _ _ _ (Or.inr (Or.inr (by decide)))⟩

/-- Re-indexing of the backoff sequence: prepending the sleep of the current
attempt to the sleeps of the attempts after it. -/
theorem cons_pow_range (attempt k : Nat) :
    2 ^ attempt :: (List.range k).map (fun i => 2 ^ (attempt + 1 + i)) =
      (List.range (k + 1)).map (fun i => 2 ^ (attempt + i)) := by
  rw [List.range_succ_eq_map, List.map_cons, List.map_map]
  simp only [Nat.add_zero]
  congr 1
  apply List.map_congr_left
  intro i _
  simp only [Function.comp_apply]
  congr 1
  omega

/-- The retry loop from attempt index `attempt`: if the next `k` attempts
fail transiently and attempt `attempt + k` succeeds (staying within the
retry budget), the loop returns that response after `k + 1` attempts,
sleeping `2^attempt, ..., 2^(attempt+k-1)` seconds in between. -/
theorem retryLoop_success (mr : Nat) (net : Nat → AttemptOutcome) (r : HttpResponse) :
    ∀ k attempt fuel, attempt + k ≤ mr → k < fuel →
      (∀ i, i < k → ∃ kk mm, net (attempt + i) = .transient kk mm) →
      net (attempt + k) = .success r →
      retryLoop mr net attempt fuel =
        ⟨.ok r, k + 1, (List.range k).map (fun i => 2 ^ (attempt + i))⟩ := by
  intro k
  induction k with
  | zero =>
    intro attempt fuel hle hfuel htr hsucc
    obtain ⟨fuel, rfl⟩ : ∃ f, fuel = f + 1 := ⟨fuel - 1, by omega⟩
    rw [Nat.add_zero] at hsucc
    simp only [retryLoop, hsucc]
    rfl
  | succ k ih =>
    intro attempt fuel hle hfuel htr hsucc
    obtain ⟨fuel, rfl⟩ : ∃ f, fuel = f + 1 := ⟨fuel - 1, by omega⟩
    obtain ⟨kk, mm, h0⟩ := htr 0 (Nat.succ_pos k)
    rw [Nat.add_zero] at h0
    simp only [retryLoop, h0]
    rw [if_pos (by omega : attempt < mr)]
    rw [ih (attempt + 1) fuel (by omega) (by omega)
      (fun i hi => by
        obtain ⟨kk2, mm2, hh⟩ := htr (i + 1) (by omega)
        exact ⟨kk2, mm2, by rw [show attempt + 1 + i = attempt + (i + 1) by omega]; exact hh⟩)
      (by rw [show attempt + 1 + k = attempt + (k + 1) by omega]; exact hsucc)]
    show RetryTrace.mk (.ok r) (k + 1 + 1)
        (2 ^ attempt :: (List.range k).map (fun i => 2 ^ (attempt + 1 + i))) = _
    rw [cons_pow_range]

/-- The retry loop from attempt index `attempt` when every remaining attempt
(up to and including attempt `mr`) fails transiently: the last transient
exception is re-raised after all remaining attempts, with a sleep after each
attempt but the last. -/
theorem retryLoop_exhaust (mr : Nat) (net : Nat → AttemptOutcome)
    (kl : TransientKind) (ml : String) (hlast : net mr = .transient kl ml) :
    ∀ d attempt fuel, attempt + d = mr → d < fuel →
      (∀ i, attempt ≤ i → i < mr → ∃ kk mm, net i = .transient kk mm) →
      retryLoop mr net attempt fuel =
        ⟨.error (transientErr kl ml), d + 1, (List.range d).map (fun i => 2 ^ (attempt + i))⟩ := by
  intro d
  induction d with
  | zero =>
    intro attempt fuel h hfuel htr
    obtain ⟨fuel, rfl⟩ : ∃ f, fuel = f + 1 := ⟨fuel - 1, by omega⟩
    have ha : attempt = mr := by omega
    subst ha
    simp only [retryLoop, hlast]
    rw [if_neg (lt_irrefl attempt)]
    rfl
  | succ d ih =>
    intro attempt fuel h hfuel htr
    obtain ⟨fuel, rfl⟩ : ∃ f, fuel = f + 1 := ⟨fuel - 1, by omega⟩
    obtain ⟨kk, mm, h0⟩ := htr attempt le_rfl (by omega)
    simp only [retryLoop, h0]
    rw [if_pos (by omega : attempt < mr)]
    rw [ih (attempt + 1) fuel (by omega) (by omega) (fun i hi1 hi2 => htr i (by omega) hi2)]
    show RetryTrace.mk (.error (transientErr kl ml)) (d + 1 + 1)
        (2 ^ attempt :: (List.range d).map (fun i => 2 ^ (attempt + 1 + i))) = _
    rw [cons_pow_range]

/-- With valid arguments, `natural_query` forwards the trace of
`_make_request_with_retry` when the latter raises: the raised exception goes
through the `except` clauses unchanged except for the timeout wrap. -/
theorem natural_query_of_err (st : ClientState) (net : Nat → AttemptOutcome)
    (q : String) (rf : JValue) (em sid : Option JValue) (e : PyErr) (a : Nat) (s : List Nat)
    (h1 : (pyStrip q).length ≠ 0) (h2 : q.length ≤ 1000) (h3 : isValidFormat rf = true)
    (htr : make_request_with_retry st.max_retries net = ⟨.error e, a, s⟩) :
    natural_query st net (.str q) rf em sid = ⟨.error (naturalQueryExcept st e), a, s⟩ := by
  have hq : q ≠ "" := by
    intro he; subst he; exact h1 (by decide)
  have hqt : pyTruthy (.str q) = true := by simp [pyTruthy, hq]
  unfold natural_query
  rw [hqt]
  simp only [Bool.not_true, Bool.false_eq_true, if_false]
  rw [if_neg h1, if_neg (by omega : ¬ q.length > 1000), h3]
  simp only [Bool.not_true, Bool.false_eq_true, if_false]
  rw [htr]

/-- With valid arguments, a response obtained on some attempt with a non-2xx
status makes `natural_query` raise `HTTPStatusError` carrying that
response, with the trace of the retry loop. -/
theorem natural_query_of_status_bad (st : ClientState) (net : Nat → AttemptOutcome)
    (q : String) (rf : JValue) (em sid : Option JValue) (resp : HttpResponse) (a : Nat) (s : List Nat)
    (h1 : (pyStrip q).length ≠ 0) (h2 : q.length ≤ 1000) (h3 : isValidFormat rf = true)
    (htr : make_request_with_retry st.max_retries net = ⟨.ok resp, a, s⟩)
    (hbad : is2xx resp.statusCode = false) :
    natural_query st net (.str q) rf em sid = ⟨.error (.httpStatusError resp), a, s⟩ := by
  have hq : q ≠ "" := by
    intro he; subst he; exact h1 (by decide)
  have hqt : pyTruthy (.str q) = true := by simp [pyTruthy, hq]
  unfold natural_query
  rw [hqt]
  simp only [Bool.not_true, Bool.false_eq_true, if_false]
  rw [if_neg h1, if_neg (by omega : ¬ q.length > 1000), h3]
  simp only [Bool.not_true, Bool.false_eq_true, if_false]
  rw [htr]
  simp only [hbad, Bool.false_eq_true, if_false]

/-- With valid arguments, a 2xx response whose body parses as JSON makes
`natural_query` return the parsed body, with the trace of the retry loop. -/
theorem natural_query_of_ok (st : ClientState) (net : Nat → AttemptOutcome)
    (q : String) (rf : JValue) (em sid : Option JValue) (resp : HttpResponse)
    (a : Nat) (s : List Nat) (j : JValue)
    (h1 : (pyStrip q).length ≠ 0) (h2 : q.length ≤ 1000) (h3 : isValidFormat rf = true)
    (htr : make_request_with_retry st.max_retries net = ⟨.ok resp, a, s⟩)
    (hgood : is2xx resp.statusCode = true) (hj : resp.jsonBody = .ok j) :
    natural_query st net (.str q) rf em sid = ⟨.ok j, a, s⟩ := by
  have hq : q ≠ "" := by
    intro he; subst he; exact h1 (by decide)
  have hqt : pyTruthy (.str q) = true := by simp [pyTruthy, hq]
  unfold natural_query
  rw [hqt]
  simp only [Bool.not_true, Bool.false_eq_true, if_false]
  rw [if_neg h1, if_neg (by omega : ¬ q.length > 1000), h3]
  simp only [Bool.not_true, Bool.false_eq_true, if_false]
  rw [htr]
  simp only [hgood, if_true]
  rw [hj]

/-- C1: with valid arguments, (a) if the first `k` attempts (`k ≤
max_retries`) fail with a transient exception (connection-timeout,
connect-failure or read-failure) and attempt `k+1` returns a (2xx,
JSON-parsable) response, `natural_query` returns that response's parsed body
after `k+1` attempts, sleeping `2^0, ..., 2^(k-1)` seconds between
consecutive attempts; (b) if all `max_retries + 1` attempts fail
transiently, exactly `max_retries + 1` attempts are made, the sleeps are
`2^0, ..., 2^(max_retries-1)`, and the call raises the last transient
exception (passed through `natural_query`'s except clause, which realises
the spec's `TransientNetworkError`: the timeout becomes
`Exception("Request timeout after {timeout}s")`, connect/read failures are
re-raised as such), with no further retry. -/
theorem natural_query_retry_spec (st : ClientState) (net : Nat → AttemptOutcome)
    (q : String) (rf : JValue) (em sid : Option JValue)
    (h1 : (pyStrip q).length ≠ 0) (h2 : q.length ≤ 1000) (h3 : isValidFormat rf = true) :
    (∀ k r j, k ≤ st.max_retries →
      (∀ i, i < k → ∃ kk mm, net i = .transient kk mm) →
      net k = .success r → is2xx r.statusCode = true → r.jsonBody = .ok j →
      natural_query st net (.str q) rf em sid =
        ⟨.ok j, k + 1, (List.range k).map (fun i => 2 ^ i)⟩) ∧
    (∀ kl ml, net st.max_retries = .transient kl ml →
      (∀ i, i < st.max_retries → ∃ kk mm, net i = .transient kk mm) →
      natural_query st net (.str q) rf em sid =
        ⟨.error (naturalQueryExcept st (transientErr kl ml)),
          st.max_retries + 1, (List.range st.max_retries).map (fun i => 2 ^ i)⟩) := by
  constructor
  · intro k r j hk htrans hsucc h2xx hjson
    have hmk : make_request_with_retry st.max_retries net =
        ⟨.ok r, k + 1, (List.range k).map (fun i => 2 ^ i)⟩ := by
      have hrl := retryLoop_success st.max_retries net r k 0 (st.max_retries + 1)
        (by omega) (by omega)
        (fun i hi => by rw [Nat.zero_add]; exact htrans i hi)
        (by rw [Nat.zero_add]; exact hsucc)
      unfold make_request_with_retry
      rw [hrl]
      simp only [Nat.zero_add]
    exact natural_query_of_ok st net q rf em sid r (k + 1) _ j h1 h2 h3 hmk h2xx hjson
  · intro kl ml hlast htrans
    have hmk : make_request_with_retry st.max_retries net =
        ⟨.error (transientErr kl ml), st.max_retries + 1,
          (List.range st.max_retries).map (fun i => 2 ^ i)⟩ := by
      have hrl := retryLoop_exhaust st.max_retries net kl ml hlast st.max_retries 0
        (st.max_retries + 1) (by omega) (by omega)
        (fun i _ hi2 => htrans i hi2)
      unfold make_request_with_retry
      rw [hrl]
      simp only [Nat.zero_add]
    exact natural_query_of_err st net q rf em sid _ _ _ h1 h2 h3 hmk

/-- Concrete network for the C1 witness: connect failures on attempts 0 and
1, success on attempt 2. -/
def netBackoff : Nat → AttemptOutcome := fun i =>
  if i < 2 then .transient .connect "connection reset"
  else .success ⟨200, "\x7b\"count\": 5\x7d", .ok (.obj [("count", .num 5)])⟩

/-- Concrete network for the C1 witness: connect failure on every attempt. -/
def netAllFail : Nat → AttemptOutcome := fun _ => .transient .connect "connection reset"

/-- Witness for C1: with `max_retries = 3`, two connect failures followed by
a success return the parsed body after 3 attempts with sleeps 1s, 2s; four
connect failures out of four attempts re-raise the connect failure with
sleeps 1s, 2s, 4s and no fifth attempt. -/
theorem natural_query_retry_spec_witness :
    natural_query stAuthed netBackoff (.str "count leads") (.str "both") none none
      = ⟨.ok (.obj [("count", .num 5)]), 3, [1, 2]⟩ ∧
    natural_query stAuthed netAllFail (.str "count leads") (.str "both") none none
      = ⟨.error (.connectErr "connection reset"), 4, [1, 2, 4]⟩ := by
  constructor
  · exact (natural_query_retry_spec stAuthed netBackoff "count leads" (.str "both") none none
      (by decide) (by decide) (by decide)).1 2
      ⟨200, "\x7b\"count\": 5\x7d", .ok (.obj [("count", .num 5)])⟩ (.obj [("count", .num 5)])
      (by decide)
      (fun i hi => ⟨.connect, "connection reset", by unfold netBackoff; rw [if_pos hi]⟩)
      (by unfold netBackoff; rw [if_neg (by omega)]) (by decide) rfl
  · exact (natural_query_retry_spec stAuthed netAllFail "count leads" (.str "both") none none
      (by decide) (by decide) (by decide)).2 .connect "connection reset" rfl
      (fun i _ => ⟨.connect, "connection reset", rfl⟩)

/-- C2: with valid arguments, when the first attempt completes with a
response whose status is not 2xx, exactly one request attempt is made (the
retry loop never retries a returned response) and `natural_query` raises
`HTTPStatusError` carrying that response (hence its status code and
body). -/
theorem natural_query_no_retry_on_status (st : ClientState) (net : Nat → AttemptOutcome)
    (q : String) (rf : JValue) (em sid : Option JValue) (r : HttpResponse)
    (h1 : (pyStrip q).length ≠ 0) (h2 : q.length ≤ 1000) (h3 : isValidFormat rf = true)
    (hnet : net 0 = .success r) (hbad : is2xx r.statusCode = false) :
    natural_query st net (.str q) rf em sid = ⟨.error (.httpStatusError r), 1, []⟩ := by
  have hmk : make_request_with_retry st.max_retries net = ⟨.ok r, 1, []⟩ := by
    have hrl := retryLoop_success st.max_retries net r 0 0 (st.max_retries + 1)
      (by omega) (by omega)
      (fun i hi => absurd hi (by omega))
      (by rw [Nat.zero_add]; exact hnet)
    unfold make_request_with_retry
    rw [hrl]
    rfl
  exact natural_query_of_status_bad st net q rf em sid r 1 [] h1 h2 h3 hmk hbad

/-- Witness for C2: a 404 response on the first attempt is raised as
`HTTPStatusError` with exactly one attempt and no sleeps. -/
theorem natural_query_no_retry_on_status_witness :
    natural_query stAuthed (fun _ => .success ⟨404, "Not Found", .error "Expecting value"⟩)
      (.str "count leads") (.str "both") none none
      = ⟨.error (.httpStatusError ⟨404, "Not Found", .error "Expecting value"⟩), 1, []⟩ :=
  natural_query_no_retry_on_status stAuthed _ "count leads" (.str "both") none none
    ⟨404, "Not Found", .error "Expecting value"⟩
    (by decide) (by decide) (by decide) rfl (by decide)

theorem optTruthy_some (v : JValue) : optTruthy (some v) = pyTruthy v := rfl

/-- Every content element produced by the dispatch body (when it does not
raise) has kind `"text"`. -/
theorem call_tool_inner_text (st : ClientState) (net : Nat → AttemptOutcome)
    (name : String) (args : List (String × JValue)) (r : DispatchResult)
    (h : call_tool_inner st net name args = .ok r) :
    ∀ c ∈ r.contents, c.type = "text" := by
  simp only [call_tool_inner] at h
  repeat' split at h
  all_goals cases h
  all_goals intro c hc
  all_goals simp only [List.mem_singleton] at hc
  all_goals subst hc
  all_goals rfl

/-- C7: for every tool name and every (possibly absent) argument mapping,
`handle_call_tool` returns (never raises: the outer handlers of
src/mcp_core.py lines 278-296 catch every modelled exception) and every
element of the returned list is a `"text"` content. -/
theorem handle_call_tool_total (st : ClientState) (net : Nat → AttemptOutcome)
    (name : String) (arguments : Option (List (String × JValue))) :
    ∃ r, handle_call_tool st net name arguments = .ok r ∧
      ∀ c ∈ r.contents, c.type = "text" := by
  simp only [handle_call_tool]
  rcases hinner : call_tool_inner st net name (arguments.getD []) with e | r
  · cases e with
    | valueError m =>
      exact ⟨_, rfl, by intro c hc; simp only [List.mem_singleton] at hc; subst hc; rfl⟩
    | httpStatusError rr =>
      exact ⟨_, rfl, by intro c hc; simp only [List.mem_singleton] at hc; subst hc; rfl⟩
    | timeoutErr m =>
      exact ⟨_, rfl, by intro c hc; simp only [List.mem_singleton] at hc; subst hc; rfl⟩
    | connectErr m =>
      exact ⟨_, rfl, by intro c hc; simp only [List.mem_singleton] at hc; subst hc; rfl⟩
    | readErr m =>
      exact ⟨_, rfl, by intro c hc; simp only [List.mem_singleton] at hc; subst hc; rfl⟩
    | generic m =>
      exact ⟨_, rfl, by intro c hc; simp only [List.mem_singleton] at hc; subst hc; rfl⟩
  · exact ⟨r, rfl, call_tool_inner_text st net name _ r hinner⟩


/-- Reduction of the dispatcher on the `natural_query` branch: with a token
set and a truthy query argument, the result is determined by the outcome of
the delegated `natural_query` call, through the inner `try/except` of
src/mcp_core.py lines 257-273 (never through the outer handlers). -/
theorem handle_call_tool_nq (st : ClientState) (net : Nat → AttemptOutcome)
    (args : List (String × JValue)) (qv : JValue)
    (htok : tokenTruthy st.auth_token = true)
    (hq : argGet args "query" = some qv) (hqt : pyTruthy qv = true) :
    handle_call_tool st net "natural_query" (some args) =
      .ok (match natural_query st net qv (argGetD args "response_format" (.str "both"))
            (argGet args "enable_memory") (argGet args "session_id") with
        | ⟨.ok result, a, s⟩ =>
            ⟨[⟨"text", "Natural Query Results:\n\n" ++ jsonDumps result⟩], st, a, s⟩
        | ⟨.error (.httpStatusError r), a, s⟩ =>
            ⟨[⟨"text", "API Error: HTTP " ++ toString r.statusCode ++ ": " ++ r.text⟩], st, a, s⟩
        | ⟨.error e, a, s⟩ =>
            ⟨[⟨"text", "Error executing natural query: " ++ pyStr e⟩], st, a, s⟩) := by
  simp only [handle_call_tool, call_tool_inner, Option.getD_some, if_true, ite_true]
  rw [htok]
  simp only [Bool.not_true, Bool.false_eq_true, if_false]
  rw [hq]
  simp only [optTruthy_some, hqt, Bool.not_true, Bool.false_eq_true, if_false, Option.getD_some]
  rcases hout : natural_query st net qv (argGetD args "response_format" (.str "both"))
      (argGet args "enable_memory") (argGet args "session_id") with ⟨res, a, s⟩
  cases res with
  | ok j => rfl
  | error e => cases e <;> rfl


/-- A network oracle that is never consulted (validation fails first). -/
def netUnused : Nat → AttemptOutcome := fun _ => .fatal "unused"

/-- Counterexample to C4 as stated: with a token set, a present query and an
invalid `response_format`, the delegated `natural_query` raises
`ValueError`, but the dispatcher's reply text starts with
"Error executing natural query: " (the inner catch-all of src/mcp_core.py
line 268 runs first), not with the claimed "Validation Error: " prefix. -/
theorem callTool_nq_validation_prefix_cex :
    handle_call_tool stAuthed netUnused "natural_query"
        (some [("query", .str "x"), ("response_format", .str "bogus")]) =
      .ok ⟨[⟨"text", "Error executing natural query: Invalid response_format. Must be \x27table\x27, \x27natural\x27, or \x27both\x27"⟩], stAuthed, 0, []⟩ ∧
    pyStartsWith "Error executing natural query: Invalid response_format. Must be \x27table\x27, \x27natural\x27, or \x27both\x27"
      "Validation Error: " = false :=
  ⟨rfl, by decide⟩

/-- C4 (amended): when the delegated `natural_query` raises a
`ValidationError` with message `m`, the dispatcher returns a single text
result whose text is "Error executing natural query: " ++ m; the
"Validation Error: " prefix of the outer handler is unreachable from the
`natural_query` branch because the inner `except Exception` catches the
`ValueError` first. -/
theorem callTool_nq_validation_text (st : ClientState) (net : Nat → AttemptOutcome)
    (args : List (String × JValue)) (qv : JValue) (m : String)
    (htok : tokenTruthy st.auth_token = true)
    (hq : argGet args "query" = some qv) (hqt : pyTruthy qv = true)
    (herr : (natural_query st net qv (argGetD args "response_format" (.str "both"))
        (argGet args "enable_memory") (argGet args "session_id")).result = .error (.valueError m)) :
    handle_call_tool st net "natural_query" (some args) =
      .ok ⟨[⟨"text", "Error executing natural query: " ++ m⟩], st,
        (natural_query st net qv (argGetD args "response_format" (.str "both"))
          (argGet args "enable_memory") (argGet args "session_id")).attempts,
        (natural_query st net qv (argGetD args "response_format" (.str "both"))
          (argGet args "enable_memory") (argGet args "session_id")).sleeps⟩ := by
  rw [handle_call_tool_nq st net args qv htok hq hqt]
  rcases hout : natural_query st net qv (argGetD args "response_format" (.str "both"))
      (argGet args "enable_memory") (argGet args "session_id") with ⟨res, a, sl⟩
  rw [hout] at herr
  obtain rfl : res = .error (.valueError m) := herr
  rfl

/-- Witness for the amended C4 at a concrete invalid `response_format`. -/
theorem callTool_nq_validation_text_witness :
    handle_call_tool stAuthed netUnused "natural_query"
        (some [("query", .str "hello"), ("response_format", .str "weird")]) =
      .ok ⟨[⟨"text", "Error executing natural query: Invalid response_format. Must be \x27table\x27, \x27natural\x27, or \x27both\x27"⟩], stAuthed, 0, []⟩ :=
  callTool_nq_validation_text stAuthed netUnused
    [("query", .str "hello"), ("response_format", .str "weird")] (.str "hello")
    "Invalid response_format. Must be \x27table\x27, \x27natural\x27, or \x27both\x27"
    (by decide) rfl (by decide) rfl

/-- Counterexample to C5 as stated: exhausting the retries (a transient
failure on all four attempts with `max_retries = 3`) makes the dispatcher
reply with "Error executing natural query: ..." — again the inner
catch-all — not with the claimed "Unexpected error: " prefix. -/
theorem callTool_nq_unexpected_prefix_cex :
    handle_call_tool stAuthed netAllFail "natural_query" (some [("query", .str "x")]) =
      .ok ⟨[⟨"text", "Error executing natural query: connection reset"⟩], stAuthed, 4, [1, 2, 4]⟩ ∧
    pyStartsWith "Error executing natural query: connection reset" "Unexpected error: " = false :=
  ⟨rfl, by decide⟩

/-- C5 (amended): when the delegated `natural_query` raises any failure that
is neither a `ValidationError` nor an `UpstreamStatusError` (this includes
the transient-exhaustion failures), the dispatcher returns a single text
result whose text is "Error executing natural query: " followed by the
failure's message; the outer "Unexpected error: " handler is unreachable
from the `natural_query` branch. -/
theorem callTool_nq_other_error_text (st : ClientState) (net : Nat → AttemptOutcome)
    (args : List (String × JValue)) (qv : JValue) (e : PyErr)
    (htok : tokenTruthy st.auth_token = true)
    (hq : argGet args "query" = some qv) (hqt : pyTruthy qv = true)
    (herr : (natural_query st net qv (argGetD args "response_format" (.str "both"))
        (argGet args "enable_memory") (argGet args "session_id")).result = .error e)
    (hnv : ∀ mm, e ≠ .valueError mm)
    (hns : ∀ rr, e ≠ .httpStatusError rr) :
    handle_call_tool st net "natural_query" (some args) =
      .ok ⟨[⟨"text", "Error executing natural query: " ++ pyStr e⟩], st,
        (natural_query st net qv (argGetD args "response_format" (.str "both"))
          (argGet args "enable_memory") (argGet args "session_id")).attempts,
        (natural_query st net qv (argGetD args "response_format" (.str "both"))
          (argGet args "enable_memory") (argGet args "session_id")).sleeps⟩ := by
  rw [handle_call_tool_nq st net args qv htok hq hqt]
  rcases hout : natural_query st net qv (argGetD args "response_format" (.str "both"))
      (argGet args "enable_memory") (argGet args "session_id") with ⟨res, a, sl⟩
  rw [hout] at herr
  obtain rfl : res = .error e := herr
  cases e with
  | valueError mm => exact absurd rfl (hnv mm)
  | httpStatusError rr => exact absurd rfl (hns rr)
  | timeoutErr mm => rfl
  | connectErr mm => rfl
  | readErr mm => rfl
  | generic mm => rfl

/-- Witness for the amended C5 at a concrete all-transient network. -/
theorem callTool_nq_other_error_text_witness :
    handle_call_tool stAuthed netAllFail "natural_query" (some [("query", .str "leads")]) =
      .ok ⟨[⟨"text", "Error executing natural query: connection reset"⟩], stAuthed, 4, [1, 2, 4]⟩ :=
  callTool_nq_other_error_text stAuthed netAllFail [("query", .str "leads")] (.str "leads")
    (.connectErr "connection reset")
    (by decide) rfl (by decide) rfl
    (fun mm h => nomatch h) (fun rr h => nomatch h)

/-- The response used by the C6 counterexample/witness: a 500 whose JSON
body contains an `error_code` field. -/
def respEC : HttpResponse :=
  ⟨500, "\x7b\"error_code\": \"QUOTA_EXCEEDED\"\x7d",
    .ok (.obj [("error_code", .str "QUOTA_EXCEEDED")])⟩

/-- Counterexample to C6 as stated: on an upstream 500 whose body is JSON
with an `error_code` field, the dispatcher's text still carries the raw
body ("API Error: HTTP 500: \x7b...\x7d"); it does not use the error code in
place of the raw body (`outerStatusText`, the handler the claim describes,
is unreachable, and its output differs from what is returned). -/
theorem callTool_nq_error_code_cex :
    handle_call_tool stAuthed (fun _ => .success respEC) "natural_query"
        (some [("query", .str "x")]) =
      .ok ⟨[⟨"text", "API Error: HTTP 500: \x7b\"error_code\": \"QUOTA_EXCEEDED\"\x7d"⟩], stAuthed, 1, []⟩ ∧
    "API Error: HTTP 500: \x7b\"error_code\": \"QUOTA_EXCEEDED\"\x7d" ≠ outerStatusText respEC :=
  ⟨rfl, by decide⟩

/-- C6 (amended): on `UpstreamStatusError` the dispatcher returns a single
text result "API Error: HTTP {status}: {body}" built from the status code
and the raw response body; the `error_code` field of a JSON body is never
consulted (the outer handler containing that logic is unreachable from the
`natural_query` branch). -/
theorem callTool_nq_status_error_text (st : ClientState) (net : Nat → AttemptOutcome)
    (args : List (String × JValue)) (qv : JValue) (r : HttpResponse)
    (htok : tokenTruthy st.auth_token = true)
    (hq : argGet args "query" = some qv) (hqt : pyTruthy qv = true)
    (herr : (natural_query st net qv (argGetD args "response_format" (.str "both"))
        (argGet args "enable_memory") (argGet args "session_id")).result = .error (.httpStatusError r)) :
    handle_call_tool st net "natural_query" (some args) =
      .ok ⟨[⟨"text", "API Error: HTTP " ++ toString r.statusCode ++ ": " ++ r.text⟩], st,
        (natural_query st net qv (argGetD args "response_format" (.str "both"))
          (argGet args "enable_memory") (argGet args "session_id")).attempts,
        (natural_query st net qv (argGetD args "response_format" (.str "both"))
          (argGet args "enable_memory") (argGet args "session_id")).sleeps⟩ := by
  rw [handle_call_tool_nq st net args qv htok hq hqt]
  rcases hout : natural_query st net qv (argGetD args "response_format" (.str "both"))
      (argGet args "enable_memory") (argGet args "session_id") with ⟨res, a, sl⟩
  rw [hout] at herr
  obtain rfl : res = .error (.httpStatusError r) := herr
  rfl

/-- Witness for the amended C6 at the concrete 500-with-error-code
response. -/
theorem callTool_nq_status_error_text_witness :
    handle_call_tool stAuthed (fun _ => .success respEC) "natural_query"
        (some [("query", .str "deals")]) =
      .ok ⟨[⟨"text", "API Error: HTTP 500: \x7b\"error_code\": \"QUOTA_EXCEEDED\"\x7d"⟩], stAuthed, 1, []⟩ :=
  callTool_nq_status_error_text stAuthed (fun _ => .success respEC)
    [("query", .str "deals")] (.str "deals") respEC
    (by decide) rfl (by decide) rfl


/-- The token-restore of the `finally` blocks puts back exactly the original
value whenever that value is not the empty-string sentinel (which Python
truthiness cannot distinguish from an absent token: a falsy original is
cleared to `None`). -/
theorem restoreToken_auth_token (st : ClientState) (orig : Option String)
    (h : orig ≠ some "") : (restoreToken st orig).auth_token = orig := by
  unfold restoreToken
  cases orig with
  | none => rfl
  | some sVal =>
    have hs : sVal ≠ "" := fun hh => h (by rw [hh])
    have ht : tokenTruthy (some sVal) = true := by simp [tokenTruthy, hs]
    rw [ht, if_pos rfl]

/-- The call `set_auth_token` either rejects, leaving the state unchanged, or accepts
and stores exactly the given token. -/
theorem set_auth_token_cases (st : ClientState) (token : String) :
    set_auth_token st token = (st, .error (.valueError "Invalid token format")) ∨
    set_auth_token st token = ({ st with auth_token := some token }, .ok ()) := by
  unfold set_auth_token
  split
  · left; rfl
  · right; rfl

/-- C9 (amended): for every sequential execution of the handlers
`POST /query`, `GET /tools` and `POST /tools` from a state whose stored
token is not the empty string (it is absent, or a non-empty string — the
only values Python truthiness distinguishes, and the only ones
`set_auth_token` can store), the stored token after the handler equals its
value before: the per-request header token is set before the delegated call
and restored (or cleared back to absent) in the `finally` block, for every
network behaviour, including delegated-call failures. -/
theorem handlers_restore_token (st : ClientState) (net : Nat → AttemptOutcome)
    (now : String) (req : QueryRequest) (treq : ToolRequest) (auth : Option String)
    (h : st.auth_token ≠ some "") :
    (natural_language_query st net now req auth).state.auth_token = st.auth_token ∧
    (list_tools st auth).state.auth_token = st.auth_token ∧
    (execute_tool st net treq auth).state.auth_token = st.auth_token := by
  refine ⟨?_, ?_, ?_⟩
  · cases auth with
    | none => rfl
    | some a =>
      simp only [natural_language_query]
      cases hsw : pyStartsWith a "Bearer " with
      | false => rfl
      | true =>
        simp only [Bool.not_true, Bool.false_eq_true, if_false]
        by_cases hq : req.query = ""
        · rw [if_pos hq]
        · rw [if_neg hq]
          rcases set_auth_token_cases st (pyDrop a 7) with hcase | hcase
          · rw [hcase]
          · rw [hcase]
            dsimp only
            rcases hct : handle_call_tool { st with auth_token := some (pyDrop a 7) } net
                "natural_query"
                (some [("query", .str req.query), ("response_format", .str req.response_format)])
              with e | dr
            · dsimp only
              exact restoreToken_auth_token _ _ h
            · dsimp only
              exact restoreToken_auth_token _ _ h
  · simp only [list_tools]
    rcases hga : get_auth_token auth with es | tok
    · rfl
    · dsimp only
      rcases set_auth_token_cases st tok with hcase | hcase
      · rw [hcase]
      · rw [hcase]
        dsimp only
        exact restoreToken_auth_token _ _ h
  · simp only [execute_tool]
    rcases hga : get_auth_token auth with es | tok
    · rfl
    · dsimp only
      rcases set_auth_token_cases st tok with hcase | hcase
      · rw [hcase]
      · rw [hcase]
        dsimp only
        rcases hct : handle_call_tool { st with auth_token := some tok } net treq.name
            (some treq.arguments) with e | dr
        · dsimp only
          exact restoreToken_auth_token _ _ h
        · dsimp only
          exact restoreToken_auth_token _ _ h

/-- A client state whose stored token is the empty string (reachable only
through an empty `AMBIVO_AUTH_TOKEN` environment variable at startup). -/
def stEmptyTok : ClientState := { stDefault with auth_token := some "" }

/-- Counterexample to C9 as stated: from a state storing the empty-string
token, a `POST /tools` call returns with the token cleared to absent
(`None`), which is not the value stored before the handler ran. -/
theorem handlers_restore_token_cex :
    stEmptyTok.auth_token = some "" ∧
    (execute_tool stEmptyTok netUnused ⟨"nothing", []⟩
      (some "Bearer tok-1234567890")).state.auth_token = none ∧
    (execute_tool stEmptyTok netUnused ⟨"nothing", []⟩
      (some "Bearer tok-1234567890")).state.auth_token ≠ stEmptyTok.auth_token :=
  ⟨rfl, rfl, by decide⟩

/-- Witness for the amended C9: each of the three handlers, run from the
authed state with a fresh bearer header, leaves the stored token equal to
its prior value. -/
theorem handlers_restore_token_witness :
    (natural_language_query stAuthed netBackoff "2025-07-31T00:00:00Z" ⟨"count leads", "both"⟩
      (some "Bearer tok-1234567890")).state.auth_token = stAuthed.auth_token ∧
    (list_tools stAuthed (some "Bearer tok-1234567890")).state.auth_token = stAuthed.auth_token ∧
    (execute_tool stAuthed netBackoff ⟨"natural_query", [("query", .str "count leads")]⟩
      (some "Bearer tok-1234567890")).state.auth_token = stAuthed.auth_token :=
  handlers_restore_token stAuthed netBackoff "2025-07-31T00:00:00Z" ⟨"count leads", "both"⟩
    ⟨"natural_query", [("query", .str "count leads")]⟩ (some "Bearer tok-1234567890")
    (by decide)

end AmbivoGPT
